import Mathlib

set_option maxRecDepth 8000

/-! Verification development for the 4SIGMA blink/clench presentation
controller.  `CoreUnit` embeds the session state machine of
`core_unit_final.py`; `Fourier` embeds the calibration, detection and
band-power logic of `fourier_final.py`; `Blink` embeds the blink-detector
worker of `halo_WM_client_final.py`; `Player` embeds the slide-controller
loops of `player-final.py` and `player_final.py`.  Machine floats are
modelled as exact rationals, wall-clock instants are rational inputs
supplied by the driver, and numpy operations that raise on degenerate
shapes are modelled with `Option`/`Except`. -/

namespace CoreUnit

/-- `READY_TIME = 3.0` from `core_unit_final.py`. -/
def READY_TIME : ℚ := 3

/-- `REST_TIME = 2.0` from `core_unit_final.py`. -/
def REST_TIME : ℚ := 2

/-- Communication flag `FLAGS["BLINK_WAIT"] = 0`. -/
def FLAG_BLINK_WAIT : Nat := 0

/-- Communication flag `FLAGS["READY"] = 1`. -/
def FLAG_READY : Nat := 1

/-- Communication flag `FLAGS["REST"] = 2`. -/
def FLAG_REST : Nat := 2

/-- State code `STATES["WAIT_FOR_BLINK"] = 0` (spec: BLINK_WAIT). -/
def WAIT_FOR_BLINK : Nat := 0

/-- State code `STATES["PREPARE_TO_LISTEN"] = 1` (spec: PREPARE). -/
def PREPARE_TO_LISTEN : Nat := 1

/-- State code `STATES["WAIT_FOR_MOVE"] = 2` (spec: ARMED). -/
def WAIT_FOR_MOVE : Nat := 2

/-- State code `STATES["RESTING"] = 3` (spec: RESTING). -/
def RESTING : Nat := 3

/-- Mutable state of `run_core_unit` together with the two subscriber
mailboxes.  Both subscriber sockets are configured with `zmq.CONFLATE`, so
each mailbox retains at most the newest undelivered message; `none` means
no pending message (`zmq.Again` on a non-blocking receive). -/
structure St where
  state : Nat
  waitStart : ℚ
  moveArmed : Bool
  blinkBox : Option Int
  moveBox : Option Int
deriving DecidableEq, Repr

/-- State of `run_core_unit` on entry to the main loop:
`state = WAIT_FOR_BLINK`, `wait_start_time = 0.0`, `move_armed = False`,
no pending messages. -/
def initSt : St :=
  { state := WAIT_FOR_BLINK, waitStart := 0, moveArmed := false,
    blinkBox := none, moveBox := none }

/-- One iteration of the `while True` loop of `run_core_unit` at wall-clock
time `t`.  Returns the new state, the list of LED flags published on port
5557 during the iteration, and the list of move commands published on port
5558.  Mirrors the `match state` block: state 0 polls the blink socket,
state 1 and 3 are pure time checks, state 2 polls the move socket; a
non-blocking receive consumes the conflated mailbox. -/
def step (t : ℚ) (s : St) : St × List Nat × List Int :=
  if s.state = WAIT_FOR_BLINK then
    match s.blinkBox with
    | none => (s, [], [])
    | some v =>
      if v = 1 then
        ({ s with state := PREPARE_TO_LISTEN, waitStart := t, blinkBox := none }, [], [])
      else ({ s with blinkBox := none }, [], [])
  else if s.state = PREPARE_TO_LISTEN then
    if READY_TIME ≤ t - s.waitStart then
      ({ s with state := WAIT_FOR_MOVE, moveArmed := true }, [FLAG_READY], [])
    else (s, [], [])
  else if s.state = WAIT_FOR_MOVE then
    match s.moveBox with
    | none => (s, [], [])
    | some v =>
      if s.moveArmed then
        if v = 1 ∨ v = -1 then
          ({ s with state := RESTING, waitStart := t, moveArmed := false, moveBox := none },
            [FLAG_REST], [v])
        else ({ s with moveBox := none }, [], [])
      else ({ s with moveBox := none }, [], [])
  else if s.state = RESTING then
    if REST_TIME ≤ t - s.waitStart then
      ({ s with state := WAIT_FOR_BLINK }, [FLAG_BLINK_WAIT], [])
    else (s, [], [])
  else (s, [], [])

/-- `zmq.CONFLATE` delivery: of the messages `arr` published since the last
poll, only the newest survives; it replaces whatever was pending. -/
def deliver (box : Option Int) (arr : List Int) : Option Int :=
  match arr.getLast? with
  | some v => some v
  | none => box

/-- Environment input for one loop iteration: the wall-clock time `t` of
the iteration, and the payload values (`"blink"` field, resp. `"move"`
field) of the messages published to each subscription since the previous
iteration. -/
structure Input where
  t : ℚ
  blinks : List Int
  moves : List Int
deriving DecidableEq, Repr

/-- Run the core-unit loop over a list of iteration inputs, recording for
every iteration the pair (LED flags published, move commands published). -/
def runTrace (s : St) : List Input → St × List (List Nat × List Int)
  | [] => (s, [])
  | i :: rest =>
    let s1 := { s with blinkBox := deliver s.blinkBox i.blinks,
                       moveBox := deliver s.moveBox i.moves }
    let r := step i.t s1
    let rr := runTrace r.1 rest
    (rr.1, (r.2.1, r.2.2) :: rr.2)

end CoreUnit

/-- `np.mean` of a list of rationals (sum divided by length; a division by
zero yields `0` in Lean, but every use below is guarded to nonempty lists
exactly where the source is). -/
def listMean (l : List ℚ) : ℚ := l.sum / l.length

/-- Last `n` entries of a list (`x[-n:]` for `n` at most the length; the
whole list when `n` exceeds the length, as in numpy). -/
def lastN {α : Type} (n : Nat) (l : List α) : List α := l.drop (l.length - n)

namespace Fourier

/-- `SFREQ = 250`. -/
def SFREQ : Nat := 250

/-- `CZAS_KALIBRACJI = 3.0` (calibration duration, seconds). -/
def CZAS_KALIBRACJI : ℚ := 3

/-- `MNOZNIK_DOLNY_Zeby = 1.5` (LOW multiplier, teeth clench). -/
def MNOZNIK_DOLNY_Zeby : ℚ := 3 / 2

/-- `MNOZNIK_GORNY_Glowa = 100.0` (HIGH multiplier, head movement). -/
def MNOZNIK_GORNY_Glowa : ℚ := 100

/-- `COOLDOWN_PO_WYKRYCIU = 1.0` (cooldown, seconds). -/
def COOLDOWN_PO_WYKRYCIU : ℚ := 1

/-- `MIN_LICZBA_KLATEK = 2` (debounce frame count). -/
def MIN_LICZBA_KLATEK : Nat := 2

/-- `OKNO_FFT`-derived sub-window length: `FFT_WINDOW_SIZE = int(250 * 0.5)`. -/
def FFT_WINDOW_SIZE : Nat := 125

/-- `FREQ_MIN = 35.0`. -/
def FREQ_MIN : ℚ := 35

/-- `FREQ_MAX = 110.0`. -/
def FREQ_MAX : ℚ := 110

/-- The mutable detection globals of `fourier_final.py`:
`counter_zacisk`, `block_until`, `is_calibrated`, `calibration_buffer`,
`baseline_power`. -/
structure DetState where
  counter_zacisk : Nat
  block_until : ℚ
  is_calibrated : Bool
  calibration_buffer : List ℚ
  baseline_power : ℚ
deriving DecidableEq, Repr

/-- Values of the detection globals at module load:
`counter_zacisk = 0`, `block_until = 0.0`, `is_calibrated = False`,
`calibration_buffer = []`, `baseline_power = 1.0`. -/
def detInit : DetState :=
  { counter_zacisk := 0, block_until := 0, is_calibrated := false,
    calibration_buffer := [], baseline_power := 1 }

/-- `if raw_metric_score > 0: calibration_buffer.append(raw_metric_score)`. -/
def appendCal (raw : ℚ) (s : DetState) : DetState :=
  if 0 < raw then { s with calibration_buffer := s.calibration_buffer ++ [raw] } else s

/-- The `if len(calibration_buffer) > 5` block: set
`baseline_power = np.mean(calibration_buffer)`, replace an exact zero by
`1.0`, and set `is_calibrated = True`. -/
def tryCalibrate (s : DetState) : DetState :=
  if 5 < s.calibration_buffer.length then
    { s with
      baseline_power :=
        if listMean s.calibration_buffer = 0 then 1 else listMean s.calibration_buffer,
      is_calibrated := true }
  else s

/-- The `if not is_calibrated` branch of the detection logic, at wall-clock
time `t` with run start `t0` (`elapsed = t - t0`) and feature value `raw`.
Returns (new state, `normalized_score`, `signal_to_send`). -/
def detStepUncal (t0 t raw : ℚ) (s : DetState) : DetState × ℚ × Int :=
  if CZAS_KALIBRACJI < t - t0 then (tryCalibrate (appendCal raw s), 1, 0)
  else (appendCal raw s, 0, 0)

/-- `normalized_score = raw_metric_score / baseline_power if baseline_power > 0 else 0`. -/
def normScore (raw : ℚ) (s : DetState) : ℚ :=
  if 0 < s.baseline_power then raw / s.baseline_power else 0

/-- The calibrated branch of the detection logic: cooldown check, then
HEAD (emit `-1`), then TEETH debounce (emit `1` once the counter reaches
`MIN_LICZBA_KLATEK`), else reset the counter. -/
def detStepCal (t raw : ℚ) (s : DetState) : DetState × ℚ × Int :=
  if t < s.block_until then (s, normScore raw s, 0)
  else if MNOZNIK_GORNY_Glowa < normScore raw s then
    ({ s with block_until := t + COOLDOWN_PO_WYKRYCIU, counter_zacisk := 0 },
      normScore raw s, -1)
  else if MNOZNIK_DOLNY_Zeby < normScore raw s then
    if MIN_LICZBA_KLATEK ≤ s.counter_zacisk + 1 then
      ({ s with block_until := t + COOLDOWN_PO_WYKRYCIU, counter_zacisk := 0 },
        normScore raw s, 1)
    else ({ s with counter_zacisk := s.counter_zacisk + 1 }, normScore raw s, 0)
  else ({ s with counter_zacisk := 0 }, normScore raw s, 0)

/-- Sections 4–5 of `update_plot` (detection logic plus the decision
broadcast): one processing frame given the upstream feature value
`raw = raw_metric_score`.  The frame always publishes exactly one
`{"move": signal_to_send}` message; the returned `Int` is that payload. -/
def detStep (t0 t raw : ℚ) (s : DetState) : DetState × ℚ × Int :=
  if s.is_calibrated then detStepCal t raw s else detStepUncal t0 t raw s

/-- Run the detection frames over a list of (wall-clock time, feature
value) pairs, recording each published `(time, signal)`. -/
def detRun (t0 : ℚ) (s : DetState) : List (ℚ × ℚ) → DetState × List (ℚ × Int)
  | [] => (s, [])
  | p :: rest =>
    let r := detStep t0 p.1 p.2 s
    let rr := detRun t0 r.1 rest
    (rr.1, (p.1, r.2.2) :: rr.2)

namespace BandPower

/-- The one-sided frequency grid of `scipy.signal.welch` at sampling rate
`SFREQ` with segment length `nperseg`: `k * SFREQ / nperseg` for
`k = 0 .. nperseg // 2`. -/
def welchFreqs (nperseg : Nat) : List ℚ :=
  (List.range (nperseg / 2 + 1)).map (fun k => (k : ℚ) * SFREQ / nperseg)

/-- The frequency bins of the grid that fall inside `[fmin, fmax]`
(the mask `np.logical_and(freqs >= FREQ_MIN, freqs <= FREQ_MAX)`). -/
def bandBins (fmin fmax : ℚ) (nperseg : Nat) : List ℚ :=
  (welchFreqs nperseg).filter (fun f => decide (fmin ≤ f ∧ f ≤ fmax))

/-- `calculate_band_power` of `fourier_final.py`.  The two guards are
taken verbatim from the source: a sub-window shorter than `SFREQ // 10`
samples returns `0.0` before any spectral computation, and an empty
in-band mask returns `0.0` before the mean is taken.  The numerical PSD
estimate of `welch` (floating-point Hann windows and FFTs, outside an
exact embedding) is abstracted as the parameter `psdOf`, mapping the
sub-window and the chosen `nperseg = min(len, FFT_WINDOW_SIZE)` to the
list of per-bin PSD magnitudes; no statement below depends on its values. -/
def calculate_band_power (psdOf : List ℚ → Nat → List ℚ) (fmin fmax : ℚ)
    (signal_chunk : List ℚ) : ℚ :=
  if signal_chunk.length < SFREQ / 10 then 0
  else
    let nperseg := min signal_chunk.length FFT_WINDOW_SIZE
    if (bandBins fmin fmax nperseg).length = 0 then 0
    else
      listMean ((((welchFreqs nperseg).zip (psdOf signal_chunk nperseg)).filter
        (fun p => decide (fmin ≤ p.1 ∧ p.1 ≤ fmax))).map Prod.snd)

end BandPower

end Fourier

namespace Buffers

/-- `np.roll(a, -k)` along the sample axis: rotate left by `k` modulo the
length. -/
def npRollNeg {α : Type} (l : List α) (k : Nat) : List α :=
  if l.length = 0 then l else l.drop (k % l.length) ++ l.take (k % l.length)

/-- The rolling-buffer update of `run_blink_detector`
(`halo_WM_client_final.py` lines 88–90): `np.roll(eeg_buffer, -chunk_len)`
followed by `eeg_buffer[:, -chunk_len:] = new_block`.  The assignment
raises a numpy broadcast error when `chunk_len = 0` or
`chunk_len > BUFFER_SIZE`; those inputs yield `none`.  The element type is
generic: a single channel is a list of rationals, and the two-channel 2-D
array is a list of column pairs. -/
def ringUpdate {α : Type} (buf chunk : List α) : Option (List α) :=
  if chunk.length = 0 ∨ buf.length < chunk.length then none
  else some ((npRollNeg buf chunk.length).take (buf.length - chunk.length) ++ chunk)

/-- The per-channel buffer update of `update_plot` (`fourier_final.py`
lines 160–164): keep the last `BUFFER_SIZE` samples when the new chunk is
at least that long, otherwise shift left and append.  A zero-length chunk
would raise on the `[:-new_len]` slice assignment (and is unreachable in
the source, which only processes strictly new samples); it yields `none`. -/
def fourierBufUpdate (buf d : List ℚ) : Option (List ℚ) :=
  if buf.length ≤ d.length then some (d.drop (d.length - buf.length))
  else if d.length = 0 then none
  else some (buf.drop d.length ++ d)

/-- Feed a sequence of sample batches through the blink-detector buffer
update; `none` as soon as one update raises. -/
def ringRun {α : Type} (buf : List α) : List (List α) → Option (List α)
  | [] => some buf
  | c :: cs =>
    match ringUpdate buf c with
    | none => none
    | some b => ringRun b cs

/-- Feed a sequence of sample batches through the gesture-detector buffer
update; `none` as soon as one update raises. -/
def fourierRun (buf : List ℚ) : List (List ℚ) → Option (List ℚ)
  | [] => some buf
  | c :: cs =>
    match fourierBufUpdate buf c with
    | none => none
    | some b => fourierRun b cs

end Buffers

namespace Blink

/-- `SFREQ = 250` in `halo_WM_client_final.py`. -/
def SFREQ : Nat := 250

/-- `DERIV_THRESH = 20000.0` (threshold for the derivative, in V/s). -/
def DERIV_THRESH : ℚ := 20000

/-- `BUFFER_SIZE = int(SFREQ * WINDOW_TIME) = int(250 * 5.0) = 1250`. -/
def BUFFER_SIZE : Nat := 1250

/-- `np.diff(l, prepend=l[0])`: consecutive differences with the first
element duplicated in front, so the result has the length of `l` and its
first entry is `0`.  On an empty list the source would raise an
`IndexError` reading `l[0]`; that case is unreachable (the buffer is never
empty) and is mapped to `[]`. -/
def npDiffPrepend (l : List ℚ) : List ℚ :=
  match l with
  | [] => []
  | x :: _ => (l.zip (x :: l)).map (fun p => p.1 - p.2)

/-- `np.max(np.abs(l))` for the nonempty segments the detector scans
(folded from `0`, which agrees with the numpy value on lists of absolute
values whenever the list is nonempty; the source would raise on an empty
array, which is unreachable since the scanned segment always has at least
`SFREQ // 10 = 25` entries). -/
def maxAbs (l : List ℚ) : ℚ := (l.map (fun x => |x|)).foldl max 0

/-- The single mutable global of the blink worker: the 2-channel rolling
buffer `eeg_buffer`, stored column-wise as (O1 sample, O2 sample) pairs.
There is no calibration field and no cooldown field: the module has none. -/
structure BlinkSt where
  buf : List (ℚ × ℚ)
deriving DecidableEq, Repr

/-- `eeg_buffer = np.zeros((2, BUFFER_SIZE))`. -/
def blinkInit : BlinkSt := ⟨List.replicate BUFFER_SIZE (0, 0)⟩

/-- Sections 4–5 of one `run_blink_detector` loop iteration, on the O1
channel of the already-updated window: subtract the window mean, apply the
band-pass cascade `filt` (the `sosfilt` high-pass/low-pass pair, whose
floating-point coefficients are outside an exact embedding; every theorem
below holds for an arbitrary `filt`), differentiate, scan the last
`max(chunk_len, SFREQ // 10)` derivative samples and compare the maximal
absolute value against `DERIV_THRESH`, yielding the published
`{"blink": status}` payload.  The source computes the centering offset for
both channels but reads only `data_centered[0]`; this function receives
that channel. -/
def blinkDecide (filt : List ℚ → List ℚ) (o1 : List ℚ) (chunkLen : Nat) : Int :=
  let data_centered := o1.map (fun x => x - listMean o1)
  let clean_o1 := filt data_centered
  let deriv_trace_o1 := (npDiffPrepend clean_o1).map (fun x => x * (SFREQ : ℚ))
  let check_len := max chunkLen (SFREQ / 10)
  let max_deriv := maxAbs (lastN check_len deriv_trace_o1)
  if DERIV_THRESH < max_deriv then 1 else 0

/-- Sections 3–6 of one `run_blink_detector` loop iteration, starting from
the already-extracted per-packet chunks (`my_chunk` column lists):
concatenate, roll the buffer (`none` when the numpy assignment would
raise), then run `blinkDecide` on channel 0 (O1) of the updated window
with the concatenated chunk length, exactly as in the source.  Returns the
new buffer and the published status. -/
def blinkCycleWF (filt : List ℚ → List ℚ) (s : BlinkSt)
    (chunks : List (List (ℚ × ℚ))) : Option (BlinkSt × Int) :=
  let new_block := chunks.flatten
  (Buffers.ringUpdate s.buf new_block).map
    (fun buf1 => (⟨buf1⟩, blinkDecide filt (buf1.map Prod.fst) new_block.length))

/-- Channel names of the relay packets. -/
inductive ChName
  | Fp1
  | Fp2
  | O1
  | O2
deriving DecidableEq, Repr

/-- `ANALYZED_CHANELS = ['O1', 'O2']`. -/
def ANALYZED_CHANELS : List ChName := [ChName.O1, ChName.O2]

/-- A relay packet as received by `recv_pyobj`: the fields the worker
reads, each possibly missing (a missing field makes the dictionary lookup
raise `KeyError`).  `data` is row-major in microvolts. -/
structure Packet where
  data : Option (List (List ℚ))
  dc_offset : Option ℚ
  channels : Option (List ChName)
deriving Repr

/-- The per-cycle failures a blink-worker iteration can raise. -/
inductive WorkerErr
  | missingField
  | channelNotFound
  | indexError
  | broadcastError
deriving DecidableEq, Repr

/-- Packet processing of one element of the `for pkt in packets` loop:
read `pkt["data"]`, `pkt["dc_offset"]`, `pkt["channels"]` (raising on a
missing field), convert to volts, subtract the offset, and select the
`ANALYZED_CHANELS` rows by name (`.index` raising when a name is absent,
the row read raising when the index exceeds the array).  The two selected
rows are returned column-wise. -/
def extractChunk (p : Packet) : Except WorkerErr (List (ℚ × ℚ)) :=
  match p.data with
  | none => Except.error WorkerErr.missingField
  | some rows =>
    match p.dc_offset with
    | none => Except.error WorkerErr.missingField
    | some off =>
      match p.channels with
      | none => Except.error WorkerErr.missingField
      | some chs =>
        match chs.findIdx? (fun c => c = ChName.O1), chs.findIdx? (fun c => c = ChName.O2) with
        | some i1, some i2 =>
          match rows.get? i1, rows.get? i2 with
          | some r1, some r2 =>
            Except.ok ((r1.map (fun x => x / 1000000 - off / 1000000)).zip
              (r2.map (fun x => x / 1000000 - off / 1000000)))
          | _, _ => Except.error WorkerErr.indexError
        | _, _ => Except.error WorkerErr.channelNotFound

/-- The `for pkt in packets` loop of section 3: extract every packet in
order; the first raised failure propagates out of the loop. -/
def extractAll : List Packet → Except WorkerErr (List (List (ℚ × ℚ)))
  | [] => Except.ok []
  | p :: ps =>
    match extractChunk p with
    | Except.error e => Except.error e
    | Except.ok c =>
      match extractAll ps with
      | Except.error e => Except.error e
      | Except.ok cs => Except.ok (c :: cs)

/-- One full iteration of the blink worker on the packets drained from the
subscription this cycle: extract every packet (the first failure
propagates), then run the buffer/filter/decision pipeline (a raising numpy
assignment propagates as `broadcastError`). -/
def blinkCycle (filt : List ℚ → List ℚ) (s : BlinkSt) (packets : List Packet) :
    Except WorkerErr (BlinkSt × Int) :=
  match extractAll packets with
  | Except.error e => Except.error e
  | Except.ok chunks =>
    match blinkCycleWF filt s chunks with
    | none => Except.error WorkerErr.broadcastError
    | some r => Except.ok r

/-- The `while True` loop of `run_blink_detector`, driven by the list of
(wall-clock time, packets drained) per iteration.  An iteration with no
packets sleeps and continues without publishing.  The surrounding `try`
catches only `KeyboardInterrupt`, so the first per-cycle exception
terminates the worker: the run returns the `(time, status)` messages
published before the failure together with the escaped error, and later
iterations are never executed. -/
def blinkWorker (filt : List ℚ → List ℚ) (s : BlinkSt) :
    List (ℚ × List Packet) → List (ℚ × Int) × Option WorkerErr
  | [] => ([], none)
  | c :: rest =>
    if c.2.isEmpty then blinkWorker filt s rest
    else
      match blinkCycle filt s c.2 with
      | Except.error e => ([], some e)
      | Except.ok r =>
        let rr := blinkWorker filt r.1 rest
        ((c.1, r.2) :: rr.1, rr.2)

/-- The blink worker restricted to well-formed cycles (every packet parsed
successfully), used to state channel-dependence properties: inputs are the
per-cycle chunk lists, outputs the `(time, status)` messages, with a crash
flag for a raising buffer update. -/
def blinkWorkerWF (filt : List ℚ → List ℚ) (s : BlinkSt) :
    List (ℚ × List (List (ℚ × ℚ))) → List (ℚ × Int) × Bool
  | [] => ([], false)
  | c :: rest =>
    if c.2.isEmpty then blinkWorkerWF filt s rest
    else
      match blinkCycleWF filt s c.2 with
      | none => ([], true)
      | some r =>
        let rr := blinkWorkerWF filt r.1 rest
        ((c.1, r.2) :: rr.1, rr.2)

end Blink

namespace Player

/-- The keys `pyautogui.press` is given. -/
inductive Key
  | right
  | left
deriving DecidableEq, Repr

/-- One receive outcome per slide-controller iteration: a decoded JSON
message carrying an optional `"move"` field, a receive timeout
(`zmq.Again`), or a message whose handling raises (undecodable payload). -/
inductive InMsg
  | json (move : Option Int)
  | timeout
  | malformed
deriving DecidableEq, Repr

/-- `move_signal = msg.get("move", 0)` followed by the two `press` calls. -/
def pressOf (m : Option Int) : List Key :=
  if m.getD 0 = 1 then [Key.right]
  else if m.getD 0 = -1 then [Key.left]
  else []

/-- The message loop of `player-final.py`: a timeout continues, a decoded
message is handled, and a raising message is caught by the
`except Exception` arm which prints and then `break`s — the loop exits and
the worker ends (`sys.exit(0)`), so no later message is processed. -/
def slideLoopDash : List InMsg → List Key
  | [] => []
  | InMsg.timeout :: rest => slideLoopDash rest
  | InMsg.malformed :: _ => []
  | InMsg.json m :: rest => pressOf m ++ slideLoopDash rest

/-- The message loop of `player_final.py` (the underscore variant): the
`except Exception` arm prints without breaking, so a raising message is
dropped and the loop continues with the next message. -/
def slideLoopUnderscore : List InMsg → List Key
  | [] => []
  | InMsg.timeout :: rest => slideLoopUnderscore rest
  | InMsg.malformed :: rest => slideLoopUnderscore rest
  | InMsg.json m :: rest => pressOf m ++ slideLoopUnderscore rest

end Player

namespace Fourier

/-- The per-frame loop of the gesture detector around `detStep`: the whole
body of `update_plot` runs inside `try: ... except Exception`, which
prints and returns, so a frame whose body raises before the detection
logic (for example an acquisition failure in `eeg.get_mne()`) leaves the
detection state unchanged and the animation continues with the next
frame.  `none` models such a raising frame. -/
def fourierWorker (t0 : ℚ) (s : DetState) :
    List (Option (ℚ × ℚ)) → DetState × List Int
  | [] => (s, [])
  | none :: rest => fourierWorker t0 s rest
  | some p :: rest =>
    let r := detStep t0 p.1 p.2 s
    let rr := fourierWorker t0 r.1 rest
    (rr.1, r.2.2 :: rr.2)

end Fourier


/-! ## Claim C1: the session state machine cycle -/

/-- Claim C1: starting from BLINK_WAIT, the session state machine follows
the full cycle.  Receiving `{"blink": 1}` in WAIT_FOR_BLINK moves to
PREPARE_TO_LISTEN recording the entry time and publishing nothing; while
the elapsed time is below `READY_TIME` nothing happens; once it reaches
`READY_TIME` the machine publishes exactly one `READY` status and becomes
armed in WAIT_FOR_MOVE; a pending move message with direction `1` or `-1`
while armed publishes exactly one command with that direction and exactly
one `REST` status and moves to RESTING recording the entry time; while the
elapsed rest time is below `REST_TIME` nothing happens; once it reaches
`REST_TIME` the machine publishes exactly one `BLINK_WAIT` status and
returns to WAIT_FOR_BLINK. -/
theorem C1_session_cycle :
    (∀ (s : CoreUnit.St) (t : ℚ), s.state = CoreUnit.WAIT_FOR_BLINK →
      s.blinkBox = some 1 →
      CoreUnit.step t s =
        ({ s with state := CoreUnit.PREPARE_TO_LISTEN, waitStart := t, blinkBox := none },
          [], [])) ∧
    (∀ (s : CoreUnit.St) (t : ℚ), s.state = CoreUnit.PREPARE_TO_LISTEN →
      ¬ CoreUnit.READY_TIME ≤ t - s.waitStart →
      CoreUnit.step t s = (s, [], [])) ∧
    (∀ (s : CoreUnit.St) (t : ℚ), s.state = CoreUnit.PREPARE_TO_LISTEN →
      CoreUnit.READY_TIME ≤ t - s.waitStart →
      CoreUnit.step t s =
        ({ s with state := CoreUnit.WAIT_FOR_MOVE, moveArmed := true },
          [CoreUnit.FLAG_READY], [])) ∧
    (∀ (s : CoreUnit.St) (t : ℚ) (d : Int), s.state = CoreUnit.WAIT_FOR_MOVE →
      s.moveArmed = true → s.moveBox = some d → d = 1 ∨ d = -1 →
      CoreUnit.step t s =
        ({ s with
            state := CoreUnit.RESTING, waitStart := t, moveArmed := false, moveBox := none },
          [CoreUnit.FLAG_REST], [d])) ∧
    (∀ (s : CoreUnit.St) (t : ℚ), s.state = CoreUnit.RESTING →
      ¬ CoreUnit.REST_TIME ≤ t - s.waitStart →
      CoreUnit.step t s = (s, [], [])) ∧
    (∀ (s : CoreUnit.St) (t : ℚ), s.state = CoreUnit.RESTING →
      CoreUnit.REST_TIME ≤ t - s.waitStart →
      CoreUnit.step t s =
        ({ s with state := CoreUnit.WAIT_FOR_BLINK }, [CoreUnit.FLAG_BLINK_WAIT], [])) := by
  refine ⟨?_, ?_, ?_, ?_, ?_, ?_⟩ <;>
    intro s t
  · intro h hb
    simp [CoreUnit.step, h, hb, CoreUnit.WAIT_FOR_BLINK]
  · intro h hlt
    simp [CoreUnit.step, h, hlt, CoreUnit.WAIT_FOR_BLINK, CoreUnit.PREPARE_TO_LISTEN]
  · intro h hge
    simp [CoreUnit.step, h, hge, CoreUnit.WAIT_FOR_BLINK, CoreUnit.PREPARE_TO_LISTEN]
  · intro d h ha hb hd
    simp [CoreUnit.step, h, ha, hb, hd, CoreUnit.WAIT_FOR_BLINK, CoreUnit.PREPARE_TO_LISTEN,
      CoreUnit.WAIT_FOR_MOVE]
  · intro h hlt
    simp [CoreUnit.step, h, hlt, CoreUnit.WAIT_FOR_BLINK, CoreUnit.PREPARE_TO_LISTEN,
      CoreUnit.WAIT_FOR_MOVE, CoreUnit.RESTING]
  · intro h hge
    simp [CoreUnit.step, h, hge, CoreUnit.WAIT_FOR_BLINK, CoreUnit.PREPARE_TO_LISTEN,
      CoreUnit.WAIT_FOR_MOVE, CoreUnit.RESTING]

/-- Witness for C1: each leg of the cycle at concrete states and times,
following the spec scenario (blink at `t = 0`, ready at `t = 3`, move
`+1` at `t = 31/10`, back to blink watch at `t = 51/10`). -/
theorem C1_session_cycle_witness :
    CoreUnit.step 0
        { state := 0, waitStart := 0, moveArmed := false, blinkBox := some 1, moveBox := none } =
      ({ state := 1, waitStart := 0, moveArmed := false, blinkBox := none, moveBox := none },
        [], []) ∧
    CoreUnit.step 3
        { state := 1, waitStart := 0, moveArmed := false, blinkBox := none, moveBox := none } =
      ({ state := 2, waitStart := 0, moveArmed := true, blinkBox := none, moveBox := none },
        [1], []) ∧
    CoreUnit.step (31/10)
        { state := 2, waitStart := 0, moveArmed := true, blinkBox := none, moveBox := some 1 } =
      ({ state := 3, waitStart := 31/10, moveArmed := false, blinkBox := none, moveBox := none },
        [2], [1]) ∧
    CoreUnit.step (51/10)
        { state := 3, waitStart := 31/10, moveArmed := false, blinkBox := none, moveBox := none } =
      ({ state := 0, waitStart := 31/10, moveArmed := false, blinkBox := none, moveBox := none },
        [0], []) :=
  ⟨C1_session_cycle.1 _ 0 rfl rfl,
    C1_session_cycle.2.2.1 _ 3 rfl (by norm_num [CoreUnit.READY_TIME]),
    C1_session_cycle.2.2.2.1 _ (31/10) 1 rfl rfl rfl (Or.inl rfl),
    C1_session_cycle.2.2.2.2.2 _ (51/10) rfl (by norm_num [CoreUnit.REST_TIME])⟩

/-! ## Claim C6: move events outside ARMED -/

/-- Counterexample to claim C6.  The claim asserts that a move-event
delivered while the machine is in BLINK_WAIT, PREPARE or RESTING never
produces a command, *neither at that moment nor later*.  In the run below
the only move-event (`direction 1`) is delivered at `t = 1`, while the
machine is in PREPARE_TO_LISTEN (second conjunct); because the move
subscription is conflated the message is retained, and after the machine
arms at `t = 3` the iteration at `t = 31/10` consumes it and publishes the
command `1` (fourth entry of the trace) — with no move-event delivered
while ARMED. -/
theorem C6_counterexample :
    ((CoreUnit.runTrace CoreUnit.initSt [⟨0, [1], []⟩]).1).state =
        CoreUnit.PREPARE_TO_LISTEN ∧
    (CoreUnit.runTrace CoreUnit.initSt
        [⟨0, [1], []⟩, ⟨1, [], [1]⟩, ⟨3, [], []⟩, ⟨31/10, [], []⟩]).2 =
      [([], []), ([], []), ([CoreUnit.FLAG_READY], []), ([CoreUnit.FLAG_REST], [1])] := by
  constructor
  · simp [CoreUnit.runTrace, CoreUnit.step, CoreUnit.deliver, CoreUnit.initSt,
      CoreUnit.WAIT_FOR_BLINK, CoreUnit.PREPARE_TO_LISTEN]
  · norm_num [CoreUnit.runTrace, CoreUnit.step, CoreUnit.deliver, CoreUnit.initSt,
      CoreUnit.WAIT_FOR_BLINK, CoreUnit.PREPARE_TO_LISTEN, CoreUnit.WAIT_FOR_MOVE,
      CoreUnit.RESTING, CoreUnit.READY_TIME, CoreUnit.FLAG_READY, CoreUnit.FLAG_REST,
      CoreUnit.REST_TIME]

/-- Claim C6 (amended): an iteration polled in a state other than
WAIT_FOR_MOVE publishes no command and does not consume the pending move
message — the conflated subscription retains it, so it can still be
consumed (and produce a command) after the machine arms, unless a newer
move message overwrites it first. -/
theorem C6_no_command_outside_armed (t : ℚ) (s : CoreUnit.St)
    (h : s.state ≠ CoreUnit.WAIT_FOR_MOVE) :
    (CoreUnit.step t s).2.2 = [] ∧ ((CoreUnit.step t s).1).moveBox = s.moveBox := by
  cases hb : s.blinkBox <;> cases hm : s.moveBox <;>
    simp only [CoreUnit.step, CoreUnit.WAIT_FOR_BLINK, CoreUnit.PREPARE_TO_LISTEN,
      CoreUnit.WAIT_FOR_MOVE, CoreUnit.RESTING, hb, hm] <;>
    unfold CoreUnit.WAIT_FOR_MOVE at h <;>
    split_ifs <;> simp_all

/-- Witness for `C6_no_command_outside_armed` at the initial state and
time `0`. -/
theorem C6_no_command_outside_armed_witness :
    (CoreUnit.step 0 CoreUnit.initSt).2.2 = [] ∧
      ((CoreUnit.step 0 CoreUnit.initSt).1).moveBox = CoreUnit.initSt.moveBox :=
  C6_no_command_outside_armed 0 CoreUnit.initSt (by decide)

/-! ## Claim C2: silence before calibration -/

/-- Claim C2 (amended, gesture path): as long as the gesture detector is
not calibrated, every processing frame publishes the inactive value
`{"move": 0}`, whatever the feature value and the clock read.  (The blink
path has no calibration state at all and is not silenced; see the
counterexample.) -/
theorem C2_uncalibrated_silent (t0 t raw : ℚ) (s : Fourier.DetState)
    (h : s.is_calibrated = false) :
    (Fourier.detStep t0 t raw s).2.2 = 0 := by
  unfold Fourier.detStep
  rw [h]
  simp only [Bool.false_eq_true, if_false]
  unfold Fourier.detStepUncal
  split_ifs <;> rfl

/-- Witness for `C2_uncalibrated_silent` at the initial detector state. -/
theorem C2_uncalibrated_silent_witness :
    (Fourier.detStep 0 1 5 Fourier.detInit).2.2 = 0 :=
  C2_uncalibrated_silent 0 1 5 Fourier.detInit rfl

/-! ## Claim C8: degenerate band-power inputs -/

/-- Claim C8: `calculate_band_power` returns exactly `0` (and in
particular cannot raise) whenever the sub-window has fewer than
`SFREQ // 10` samples or no frequency bin of the spectral grid falls
inside `[fmin, fmax]`, for every PSD estimator, band and sub-window. -/
theorem C8_band_power_degenerate (psdOf : List ℚ → Nat → List ℚ)
    (fmin fmax : ℚ) (sig : List ℚ)
    (h : sig.length < Fourier.SFREQ / 10 ∨
      Fourier.BandPower.bandBins fmin fmax (min sig.length Fourier.FFT_WINDOW_SIZE) = []) :
    Fourier.BandPower.calculate_band_power psdOf fmin fmax sig = 0 := by
  unfold Fourier.BandPower.calculate_band_power
  rcases h with h | h
  · rw [if_pos h]
  · by_cases h1 : sig.length < Fourier.SFREQ / 10
    · rw [if_pos h1]
    · rw [if_neg h1]
      simp [h]

/-- Witness for `C8_band_power_degenerate`: a 10-sample window is below
the 25-sample minimum, and for a 25-sample window the grid has 10 Hz
spacing so the band `[111, 119]` contains no bin; both calls return `0`. -/
theorem C8_band_power_degenerate_witness :
    Fourier.BandPower.calculate_band_power (fun _ _ => []) Fourier.FREQ_MIN Fourier.FREQ_MAX
        (List.replicate 10 0) = 0 ∧
      Fourier.BandPower.calculate_band_power (fun _ _ => []) 111 119
        (List.replicate 25 0) = 0 :=
  ⟨C8_band_power_degenerate _ _ _ _ (Or.inl (by simp [Fourier.SFREQ])),
    C8_band_power_degenerate _ _ _ _ (Or.inr (by
      norm_num [Fourier.BandPower.bandBins, Fourier.BandPower.welchFreqs,
        Fourier.SFREQ, Fourier.FFT_WINDOW_SIZE, List.range_succ]))⟩

/-! ## Claim C3: the calibrated baseline -/

/-- The mean of a nonempty list of positive rationals is positive. -/
theorem listMean_pos (l : List ℚ) (h1 : ∀ x ∈ l, 0 < x) (h2 : l ≠ []) :
    0 < listMean l := by
  unfold listMean
  refine div_pos (List.sum_pos l h1 h2) ?_
  exact_mod_cast List.length_pos.2 h2

/-- Invariant of the calibration engine: the accumulator holds only
positive feature samples and the baseline is positive. -/
def CalInv (s : Fourier.DetState) : Prop :=
  (∀ x ∈ s.calibration_buffer, 0 < x) ∧ 0 < s.baseline_power

theorem appendCal_inv (raw : ℚ) (s : Fourier.DetState) (h : CalInv s) :
    CalInv (Fourier.appendCal raw s) := by
  unfold Fourier.appendCal
  split_ifs with hr
  · refine ⟨?_, h.2⟩
    intro x hx
    rcases List.mem_append.1 hx with hx | hx
    · exact h.1 x hx
    · rw [List.mem_singleton.1 hx]; exact hr
  · exact h

theorem tryCalibrate_inv (s : Fourier.DetState) (h : CalInv s) :
    CalInv (Fourier.tryCalibrate s) := by
  unfold Fourier.tryCalibrate
  split_ifs with h5 h0
  · exact ⟨h.1, by norm_num⟩
  · refine ⟨h.1, ?_⟩
    have hne : s.calibration_buffer ≠ [] := by
      intro he; rw [he] at h5; simp at h5
    exact listMean_pos _ h.1 hne
  · exact h

theorem detStep_inv (t0 t raw : ℚ) (s : Fourier.DetState) (h : CalInv s) :
    CalInv (Fourier.detStep t0 t raw s).1 := by
  unfold Fourier.detStep Fourier.detStepCal Fourier.detStepUncal
  split_ifs <;>
    first
      | exact h
      | exact ⟨h.1, h.2⟩
      | exact tryCalibrate_inv _ (appendCal_inv raw s h)
      | exact appendCal_inv raw s h

theorem detRun_inv (t0 : ℚ) (ins : List (ℚ × ℚ)) :
    ∀ s : Fourier.DetState, CalInv s → CalInv (Fourier.detRun t0 s ins).1 := by
  induction ins with
  | nil => intro s h; exact h
  | cons p rest ih =>
    intro s h
    exact ih _ (detStep_inv t0 p.1 p.2 s h)

/-- Counterexample to claim C3.  Six feature samples of `1/2` are
accumulated while the clock stays within the calibration window, and the
frame at `t = 4` calibrates: the resulting baseline is `1/2`, strictly
below the positive constant `1.0` that the source uses as replacement for
an exact-zero mean.  So the calibrated baseline is *not* bounded below by
the floor constant: the `baseline_power == 0` check only replaces an exact
zero, and arbitrarily small positive accumulations survive it. -/
theorem C3_counterexample :
    ((Fourier.detRun 0 Fourier.detInit
        [(1, 1/2), (3/2, 1/2), (2, 1/2), (5/2, 1/2), (3, 1/2), (4, 1/2)]).1).is_calibrated
        = true ∧
    ((Fourier.detRun 0 Fourier.detInit
        [(1, 1/2), (3/2, 1/2), (2, 1/2), (5/2, 1/2), (3, 1/2), (4, 1/2)]).1).baseline_power
        = 1/2 ∧
    ((1 : ℚ)/2) < 1 := by
  norm_num [Fourier.detRun, Fourier.detStep, Fourier.detStepUncal, Fourier.appendCal,
    Fourier.tryCalibrate, Fourier.detInit, Fourier.CZAS_KALIBRACJI, listMean]

/-- Claim C3 (amended): after the engine transitions to CALIBRATED in any
run from the initial state, the baseline power is strictly positive — but
it is not bounded below by any fixed positive floor; the source replaces
only an exact-zero mean by `1.0` and keeps arbitrarily small positive
means (see the counterexample). -/
theorem C3_baseline_pos (t0 : ℚ) (ins : List (ℚ × ℚ))
    (_h : ((Fourier.detRun t0 Fourier.detInit ins).1).is_calibrated = true) :
    0 < ((Fourier.detRun t0 Fourier.detInit ins).1).baseline_power :=
  (detRun_inv t0 ins Fourier.detInit ⟨by simp [Fourier.detInit], by norm_num [Fourier.detInit]⟩).2

/-- Witness for `C3_baseline_pos` on a run that does calibrate. -/
theorem C3_baseline_pos_witness :
    0 < ((Fourier.detRun 0 Fourier.detInit
        [(1, 1), (3/2, 1), (2, 1), (5/2, 1), (3, 1), (4, 1)]).1).baseline_power :=
  C3_baseline_pos 0 _ (by
    norm_num [Fourier.detRun, Fourier.detStep, Fourier.detStepUncal, Fourier.appendCal,
      Fourier.tryCalibrate, Fourier.detInit, Fourier.CZAS_KALIBRACJI, listMean])

/-! ## Claim C5: debounce at exactly the LOW multiplier -/

/-- Counterexample to claim C5.  The run first calibrates with baseline
`1` (six samples of `1`, calibration completing at `t = 4` with
`counter_zacisk = 0` and no cooldown pending — first conjunct), and then
holds the normalized score at exactly the LOW multiplier `3/2` for
`MIN_LICZBA_KLATEK = 2` consecutive frames (`t = 5, 6`).  The claim
predicts exactly one emitted event, on the second of those frames; the
code compares with strict `>`, so a score exactly at the multiplier
resets the debounce counter instead, and the full output trace is zero
everywhere. -/
theorem C5_counterexample :
    (Fourier.detRun 0 Fourier.detInit
        [(1, 1), (3/2, 1), (2, 1), (5/2, 1), (3, 1), (4, 1)]).1 =
      { counter_zacisk := 0, block_until := 0, is_calibrated := true,
        calibration_buffer := [1, 1, 1, 1, 1, 1], baseline_power := 1 } ∧
    (Fourier.detRun 0 Fourier.detInit
        [(1, 1), (3/2, 1), (2, 1), (5/2, 1), (3, 1), (4, 1), (5, 3/2), (6, 3/2)]).2 =
      [(1, 0), (3/2, 0), (2, 0), (5/2, 0), (3, 0), (4, 0), (5, 0), (6, 0)] := by
  constructor <;>
    norm_num [Fourier.detRun, Fourier.detStep, Fourier.detStepUncal, Fourier.detStepCal,
      Fourier.appendCal, Fourier.tryCalibrate, Fourier.detInit, Fourier.CZAS_KALIBRACJI,
      Fourier.normScore, Fourier.MNOZNIK_DOLNY_Zeby, Fourier.MNOZNIK_GORNY_Glowa,
      listMean]

/-- Claim C5 (amended): for a calibrated detector with debounce counter
`0` and no pending cooldown, a normalized score held *strictly above* the
LOW multiplier (and not above the HIGH multiplier) for
`MIN_LICZBA_KLATEK = 2` consecutive frames emits exactly one event, on
the frame the counter reaches the threshold and not earlier; a score held
exactly at the LOW multiplier emits nothing (see the counterexample, the
comparison being strict). -/
theorem C5_debounce_strict (t0 t1 t2 raw : ℚ) (s : Fourier.DetState)
    (hcal : s.is_calibrated = true) (hc : s.counter_zacisk = 0)
    (hb1 : s.block_until ≤ t1) (hb2 : s.block_until ≤ t2)
    (hlo : Fourier.MNOZNIK_DOLNY_Zeby < Fourier.normScore raw s)
    (hhi : ¬ Fourier.MNOZNIK_GORNY_Glowa < Fourier.normScore raw s) :
    (Fourier.detRun t0 s [(t1, raw), (t2, raw)]).2 = [(t1, 0), (t2, 1)] := by
  have h1 : ¬ t1 < s.block_until := not_lt.2 hb1
  have h2 : ¬ t2 < s.block_until := not_lt.2 hb2
  have hsc : ∀ n : Nat, Fourier.normScore raw
      { counter_zacisk := n, block_until := s.block_until, is_calibrated := true,
        calibration_buffer := s.calibration_buffer, baseline_power := s.baseline_power } =
      Fourier.normScore raw s := fun _ => rfl
  simp [Fourier.detRun, Fourier.detStep, Fourier.detStepCal, hcal, h1, h2, hc, hlo, hhi,
    hsc, Fourier.MIN_LICZBA_KLATEK]

/-- Witness for `C5_debounce_strict`: a calibrated state with baseline
`1` and a score of `2`, strictly between the multipliers. -/
theorem C5_debounce_strict_witness :
    (Fourier.detRun 0
        { counter_zacisk := 0, block_until := 0, is_calibrated := true,
          calibration_buffer := [1, 1, 1, 1, 1, 1], baseline_power := 1 }
        [(5, 2), (6, 2)]).2 = [(5, 0), (6, 1)] :=
  C5_debounce_strict 0 5 6 2 _ rfl rfl (by norm_num) (by norm_num)
    (by norm_num [Fourier.normScore, Fourier.MNOZNIK_DOLNY_Zeby])
    (by norm_num [Fourier.normScore, Fourier.MNOZNIK_GORNY_Glowa])

/-! ## Claim C4: cooldown between emitted events -/

theorem appendCal_block (raw : ℚ) (s : Fourier.DetState) :
    (Fourier.appendCal raw s).block_until = s.block_until := by
  unfold Fourier.appendCal; split_ifs <;> rfl

theorem tryCalibrate_block (s : Fourier.DetState) :
    (Fourier.tryCalibrate s).block_until = s.block_until := by
  unfold Fourier.tryCalibrate; split_ifs <;> rfl

/-- A frame that publishes a nonzero signal was not in cooldown
(`block_until ≤ t`) and restarts the cooldown window at
`t + COOLDOWN_PO_WYKRYCIU`. -/
theorem detStep_emit (t0 t raw : ℚ) (s : Fourier.DetState)
    (h : (Fourier.detStep t0 t raw s).2.2 ≠ 0) :
    s.block_until ≤ t ∧
      ((Fourier.detStep t0 t raw s).1).block_until = t + Fourier.COOLDOWN_PO_WYKRYCIU := by
  unfold Fourier.detStep Fourier.detStepCal Fourier.detStepUncal at h ⊢
  split_ifs at h ⊢ with hcal hblk hhi hlo hmin <;>
    simp_all <;> linarith

/-- `block_until` never decreases across a frame. -/
theorem detStep_block_mono (t0 t raw : ℚ) (s : Fourier.DetState) :
    s.block_until ≤ ((Fourier.detStep t0 t raw s).1).block_until := by
  unfold Fourier.detStep Fourier.detStepCal Fourier.detStepUncal
  split_ifs <;>
    simp [appendCal_block, tryCalibrate_block, Fourier.COOLDOWN_PO_WYKRYCIU] <;>
    linarith

/-- Every emitted event of a run carries a timestamp at or after the
starting state's cooldown horizon. -/
theorem detRun_emit_ge (t0 : ℚ) (ins : List (ℚ × ℚ)) :
    ∀ (s : Fourier.DetState) (j : Nat) (t : ℚ) (sig : Int),
      ((Fourier.detRun t0 s ins).2)[j]? = some (t, sig) → sig ≠ 0 →
      s.block_until ≤ t := by
  induction ins with
  | nil => intro s j t sig hj _; simp [Fourier.detRun] at hj
  | cons p rest ih =>
    intro s j t sig hj hs
    rw [Fourier.detRun] at hj
    cases j with
    | zero =>
      simp only [List.getElem?_cons_zero, Option.some_inj] at hj
      have ht : p.1 = t := congrArg Prod.fst hj
      have hsg : (Fourier.detStep t0 p.1 p.2 s).2.2 = sig := congrArg Prod.snd hj
      rw [← ht]
      exact (detStep_emit t0 p.1 p.2 s (by rw [hsg]; exact hs)).1
    | succ k =>
      simp only [List.getElem?_cons_succ] at hj
      exact le_trans (detStep_block_mono t0 p.1 p.2 s) (ih _ k t sig hj hs)

/-- Claim C4 (amended, gesture path): in any run of the gesture detector
from any state, two emitted events are separated by at least
`COOLDOWN_PO_WYKRYCIU` of wall-clock time: emitting sets `block_until` to
the emission time plus the cooldown, and no frame emits before its clock
reaches `block_until`.  (The blink path keeps no cooldown state at all
and can emit on consecutive iterations; see the counterexample.) -/
theorem C4_gesture_cooldown (t0 : ℚ) (ins : List (ℚ × ℚ)) :
    ∀ (s : Fourier.DetState) (i j : Nat) (ti tj : ℚ) (si sj : Int),
      i < j →
      ((Fourier.detRun t0 s ins).2)[i]? = some (ti, si) → si ≠ 0 →
      ((Fourier.detRun t0 s ins).2)[j]? = some (tj, sj) → sj ≠ 0 →
      ti + Fourier.COOLDOWN_PO_WYKRYCIU ≤ tj := by
  induction ins with
  | nil => intro s i j ti tj si sj _ hi _ _ _; simp [Fourier.detRun] at hi
  | cons p rest ih =>
    intro s i j ti tj si sj hij hi hsi hj hsj
    rw [Fourier.detRun] at hi hj
    cases i with
    | zero =>
      obtain ⟨k, rfl⟩ : ∃ k, j = k + 1 := ⟨j - 1, by omega⟩
      simp only [List.getElem?_cons_zero, Option.some_inj] at hi
      simp only [List.getElem?_cons_succ] at hj
      have ht : p.1 = ti := congrArg Prod.fst hi
      have hsg : (Fourier.detStep t0 p.1 p.2 s).2.2 = si := congrArg Prod.snd hi
      have hemit := detStep_emit t0 p.1 p.2 s (by rw [hsg]; exact hsi)
      have hge := detRun_emit_ge t0 rest _ k tj sj hj hsj
      rw [hemit.2] at hge
      linarith [hge, ht.ge, ht.le]
    | succ i' =>
      obtain ⟨k, rfl⟩ : ∃ k, j = k + 1 := ⟨j - 1, by omega⟩
      simp only [List.getElem?_cons_succ] at hi hj
      exact ih _ i' k ti tj si sj (by omega) hi hsi hj hsj

/-- Witness for `C4_gesture_cooldown`: a calibrated run with HEAD events
emitted at `t = 0` and `t = 5`; the theorem yields `0 + 1 ≤ 5`. -/
theorem C4_gesture_cooldown_witness :
    (0 : ℚ) + Fourier.COOLDOWN_PO_WYKRYCIU ≤ 5 :=
  C4_gesture_cooldown 0 [(0, 200), (5, 200)]
    { counter_zacisk := 0, block_until := 0, is_calibrated := true,
      calibration_buffer := [1, 1, 1, 1, 1, 1], baseline_power := 1 }
    0 1 0 5 (-1) (-1) (by omega)
    (by norm_num [Fourier.detRun, Fourier.detStep, Fourier.detStepCal, Fourier.normScore,
      Fourier.MNOZNIK_GORNY_Glowa])
    (by decide)
    (by norm_num [Fourier.detRun, Fourier.detStep, Fourier.detStepCal, Fourier.normScore,
      Fourier.MNOZNIK_GORNY_Glowa, Fourier.COOLDOWN_PO_WYKRYCIU])
    (by decide)

/-! ## Symbolic helpers for the blink pipeline -/

namespace Blink

/-- `np.diff(s, prepend=a)`: consecutive differences of `s` with `a`
prepended, used to describe the derivative trace on the tail of a buffer
whose long prefix is constant. -/
def diffFrom (a : ℚ) (s : List ℚ) : List ℚ :=
  (s.zip (a :: s)).map (fun p => p.1 - p.2)

theorem diffFrom_nil (a : ℚ) : diffFrom a [] = [] := rfl

theorem diffFrom_cons (a y : ℚ) (t : List ℚ) :
    diffFrom a (y :: t) = (y - a) :: diffFrom y t := by
  simp [diffFrom]

theorem diffFrom_length (a : ℚ) (s : List ℚ) : (diffFrom a s).length = s.length := by
  simp [diffFrom]

/-- Subtracting a common offset from the prepended value and from every
entry leaves the difference trace unchanged. -/
theorem diffFrom_shift (μ : ℚ) : ∀ (x : ℚ) (s : List ℚ),
    diffFrom (x - μ) (s.map (fun y => y - μ)) = diffFrom x s := by
  intro x s
  induction s generalizing x with
  | nil => simp [diffFrom]
  | cons y t ih =>
    rw [List.map_cons, diffFrom_cons, diffFrom_cons, ih y]
    ring_nf

theorem npDiffPrepend_cons_cons (a : ℚ) (t : List ℚ) :
    npDiffPrepend (a :: a :: t) = 0 :: npDiffPrepend (a :: t) := by
  simp [npDiffPrepend]

theorem npDiffPrepend_cons (a : ℚ) (t : List ℚ) :
    npDiffPrepend (a :: t) = 0 :: diffFrom a t := by
  simp [npDiffPrepend, diffFrom]

/-- The derivative trace of a buffer whose first `m ≥ 1` entries are the
constant `a`: zeros on the constant prefix, then the differences of the
suffix continued from `a`. -/
theorem npDiffPrepend_replicate_append (m : Nat) (a : ℚ) (s : List ℚ) (hm : 1 ≤ m) :
    npDiffPrepend (List.replicate m a ++ s) = List.replicate m 0 ++ diffFrom a s := by
  induction m with
  | zero => omega
  | succ n ih =>
    cases n with
    | zero =>
      simp only [List.replicate, List.nil_append, List.cons_append]
      exact npDiffPrepend_cons a s
    | succ k =>
      have hrw : List.replicate (k + 2) a ++ s = a :: (List.replicate (k + 1) a ++ s) := by
        simp [List.replicate]
      have hrw2 : List.replicate (k + 1) a ++ s = a :: (List.replicate k a ++ s) := by
        simp [List.replicate]
      rw [hrw, hrw2, npDiffPrepend_cons_cons, ← hrw2, ih (by omega)]
      simp [List.replicate]

theorem foldl_max_replicate_zero (k : Nat) (a : ℚ) (ha : 0 ≤ a) :
    List.foldl max a (List.replicate k 0) = a := by
  induction k with
  | zero => rfl
  | succ n ih => simp [List.replicate, max_eq_left ha, ih]

/-- A block of zeros in front does not change the scanned maximum. -/
theorem maxAbs_replicate_zero_append (k : Nat) (d : List ℚ) :
    maxAbs (List.replicate k 0 ++ d) = maxAbs d := by
  unfold maxAbs
  rw [List.map_append, List.map_replicate, abs_zero, List.foldl_append,
    foldl_max_replicate_zero k 0 le_rfl]

end Blink

namespace Buffers

/-- A nonempty chunk no longer than the buffer shifts the buffer left by
the chunk length and appends the chunk. -/
theorem ringUpdate_small {α : Type} (buf chunk : List α)
    (h0 : chunk ≠ []) (h1 : chunk.length ≤ buf.length) :
    ringUpdate buf chunk = some (buf.drop chunk.length ++ chunk) := by
  have hk0 : chunk.length ≠ 0 := fun h => h0 (List.length_eq_zero.1 h)
  have hb0 : buf.length ≠ 0 := fun h => hk0 (Nat.le_zero.1 (h ▸ h1))
  unfold ringUpdate npRollNeg
  rw [if_neg (by omega), if_neg hb0]
  rcases Nat.lt_or_ge chunk.length buf.length with hlt | hge
  · rw [Nat.mod_eq_of_lt hlt]
    congr 1
    rw [List.take_append_eq_append_take, List.length_drop,
      List.take_of_length_le (by rw [List.length_drop]),
      Nat.sub_self, List.take_zero, List.append_nil]
  · have heq : chunk.length = buf.length := Nat.le_antisymm h1 hge
    rw [heq, Nat.mod_self]
    simp
end Buffers

namespace Blink

/-- The decision of `blinkDecide` with the identity conditioning cascade
on a window that is constant zero except for a short suffix `q`: the
window mean drops out of the derivative, the scanned segment covers the
whole suffix, and the decision compares the scaled differences of `q`
(continued from the constant prefix) against the threshold. -/
theorem blinkDecide_replicate (n k : Nat) (q : List ℚ)
    (hn : 1 ≤ n) (hq : q.length ≤ 25) (hk : k ≤ 25) :
    blinkDecide (fun l => l) (List.replicate n 0 ++ q) k =
      if DERIV_THRESH < maxAbs ((diffFrom 0 q).map (fun x => x * (SFREQ : ℚ))) then 1 else 0 := by
  simp only [blinkDecide]
  have hmap : (List.replicate n (0:ℚ) ++ q).map
      (fun x => x - listMean (List.replicate n 0 ++ q)) =
      List.replicate n (0 - listMean (List.replicate n 0 ++ q)) ++
        q.map (fun y => y - listMean (List.replicate n 0 ++ q)) := by
    rw [List.map_append, List.map_replicate]
  rw [hmap, npDiffPrepend_replicate_append n _ _ hn, diffFrom_shift _ 0 q]
  have hmul : (List.replicate n (0:ℚ) ++ diffFrom 0 q).map (fun x => x * (SFREQ : ℚ)) =
      List.replicate n 0 ++ (diffFrom 0 q).map (fun x => x * (SFREQ : ℚ)) := by
    rw [List.map_append, List.map_replicate, zero_mul]
  rw [hmul]
  have hck : max k (SFREQ / 10) = 25 := by
    unfold SFREQ
    omega
  rw [hck]
  have hlen : (List.replicate n (0:ℚ) ++
      (diffFrom 0 q).map (fun x => x * (SFREQ : ℚ))).length = n + q.length := by
    simp [diffFrom_length]
  have hlast : lastN 25 (List.replicate n (0:ℚ) ++
      (diffFrom 0 q).map (fun x => x * (SFREQ : ℚ))) =
      List.replicate (n - (n + q.length - 25)) 0 ++
        (diffFrom 0 q).map (fun x => x * (SFREQ : ℚ)) := by
    unfold lastN
    rw [hlen, List.drop_append_eq_append_drop, List.drop_replicate, List.length_replicate]
    have h0 : n + q.length - 25 - n = 0 := by omega
    rw [h0, List.drop_zero]
  rw [hlast, maxAbs_replicate_zero_append]

/-- One blink cycle with the identity cascade on a buffer that is zero
except for a short tail `p`, fed one single-column chunk `c`: the buffer
shifts by one and gains `c`, and the published status compares the scaled
O1 differences of the tail `p ++ [c]` against the threshold. -/
theorem blinkCycleWF_single (m : Nat) (p : List (ℚ × ℚ)) (c : ℚ × ℚ)
    (hm : 26 ≤ m) (hp : p.length ≤ 24) :
    blinkCycleWF (fun l => l) ⟨List.replicate m ((0:ℚ), (0:ℚ)) ++ p⟩ [[c]] =
      some (⟨List.replicate (m - 1) ((0:ℚ), (0:ℚ)) ++ (p ++ [c])⟩,
        if DERIV_THRESH < maxAbs ((diffFrom 0 ((p ++ [c]).map Prod.fst)).map
            (fun x => x * (SFREQ : ℚ))) then 1 else 0) := by
  simp only [blinkCycleWF]
  have hfl : ([[c]] : List (List (ℚ × ℚ))).flatten = [c] := by simp
  rw [hfl]
  rw [Buffers.ringUpdate_small _ _ (by simp) (by simp; omega)]
  have hdrop : (List.replicate m ((0:ℚ), (0:ℚ)) ++ p).drop [c].length =
      List.replicate (m - 1) ((0:ℚ), (0:ℚ)) ++ p := by
    rw [List.length_singleton, List.drop_append_eq_append_drop, List.drop_replicate,
      List.length_replicate]
    have h0 : 1 - m = 0 := by omega
    rw [h0, List.drop_zero]
  rw [hdrop, List.append_assoc]
  simp only [Option.map_some']
  have ho1 : (List.replicate (m - 1) ((0:ℚ), (0:ℚ)) ++ (p ++ [c])).map Prod.fst =
      List.replicate (m - 1) (0:ℚ) ++ (p ++ [c]).map Prod.fst := by
    rw [List.map_append, List.map_replicate]
  rw [ho1, List.length_singleton,
    blinkDecide_replicate (m - 1) 1 _ (by omega) (by simp; omega) (by omega)]

end Blink

namespace Blink

/-- A well-formed relay packet whose O1 row carries one step sample of
`1e14` µV (`1e8` V after conversion) and whose other rows are zero.  The
magnitude is chosen so that the source emits at this input as well: the
conditioning cascade of `run_blink_detector` is linear with leading
coefficient about `4.6e-2` (the `butter(2, 20)` lowpass `b0`), so the
real filtered derivative at the edge is about `4.6e-2 * 1e8 * 250 ≈
1.1e9` V/s — five orders of magnitude above `DERIV_THRESH = 2e4`; any
conditioning that keeps even one part in `1e5` of the edge crosses the
threshold. -/
def spikePacket : Packet :=
  { data := some [[0], [0], [100000000000000], [0]], dc_offset := some 0,
    channels := some [ChName.Fp1, ChName.Fp2, ChName.O1, ChName.O2] }

/-- A well-formed relay packet with one all-zero sample. -/
def flatPacket : Packet :=
  { data := some [[0], [0], [0], [0]], dc_offset := some 0,
    channels := some [ChName.Fp1, ChName.Fp2, ChName.O1, ChName.O2] }

/-- A malformed relay packet: the `"data"` field is missing, so the
`pkt["data"]` lookup raises. -/
def noDataPacket : Packet :=
  { data := none, dc_offset := some 0,
    channels := some [ChName.Fp1, ChName.Fp2, ChName.O1, ChName.O2] }

theorem extractChunk_spike : extractChunk spikePacket = Except.ok [((100000000 : ℚ), 0)] := by
  have hf1 : ([ChName.Fp1, ChName.Fp2, ChName.O1, ChName.O2].findIdx?
      (fun c => c = ChName.O1)) = some 2 := by decide
  have hf2 : ([ChName.Fp1, ChName.Fp2, ChName.O1, ChName.O2].findIdx?
      (fun c => c = ChName.O2)) = some 3 := by decide
  have hg1 : ([[0], [0], [100000000000000], [0]] : List (List ℚ))[2]? = some [100000000000000] := by
    decide
  have hg2 : ([[0], [0], [100000000000000], [0]] : List (List ℚ))[3]? = some [0] := by decide
  simp only [extractChunk, spikePacket, hf1, hf2, hg1, hg2]
  norm_num

theorem extractChunk_flat : extractChunk flatPacket = Except.ok [((0 : ℚ), 0)] := by
  have hf1 : ([ChName.Fp1, ChName.Fp2, ChName.O1, ChName.O2].findIdx?
      (fun c => c = ChName.O1)) = some 2 := by decide
  have hf2 : ([ChName.Fp1, ChName.Fp2, ChName.O1, ChName.O2].findIdx?
      (fun c => c = ChName.O2)) = some 3 := by decide
  have hg : ([[0], [0], [0], [0]] : List (List ℚ))[2]? = some [0] := by decide
  have hg2 : ([[0], [0], [0], [0]] : List (List ℚ))[3]? = some [0] := by decide
  simp only [extractChunk, flatPacket, hg, hg2, hf1, hf2]
  norm_num

theorem extractAll_spike : extractAll [spikePacket] = Except.ok [[((100000000 : ℚ), 0)]] := by
  simp [extractAll, extractChunk_spike]

theorem extractAll_flat : extractAll [flatPacket] = Except.ok [[((0 : ℚ), 0)]] := by
  simp [extractAll, extractChunk_flat]

theorem spike_deriv_high :
    DERIV_THRESH < maxAbs ((diffFrom 0 [(100000000 : ℚ)]).map (fun x => x * (SFREQ : ℚ))) := by
  rw [diffFrom_cons, diffFrom_nil]
  norm_num [maxAbs, DERIV_THRESH, SFREQ, lt_max_iff, abs_of_nonneg]

theorem spike_then_flat_deriv_high :
    DERIV_THRESH < maxAbs ((diffFrom 0 [(100000000 : ℚ), 0]).map (fun x => x * (SFREQ : ℚ))) := by
  rw [diffFrom_cons, diffFrom_cons, diffFrom_nil]
  norm_num [maxAbs, DERIV_THRESH, SFREQ, lt_max_iff, abs_of_nonneg, abs_of_nonpos]

/-- The first blink cycle on a fresh buffer with the spike packet:
status `1` is published. -/
theorem blinkCycle_spike :
    blinkCycle (fun l => l) blinkInit [spikePacket] =
      Except.ok (⟨List.replicate 1249 ((0 : ℚ), (0 : ℚ)) ++ [((100000000 : ℚ), 0)]⟩, 1) := by
  have hinit : blinkInit = ⟨List.replicate 1250 ((0 : ℚ), (0 : ℚ)) ++ []⟩ := by
    simp [blinkInit, BUFFER_SIZE]
  simp only [blinkCycle, extractAll_spike, hinit,
    blinkCycleWF_single 1250 [] ((100000000 : ℚ), (0 : ℚ)) (by omega) (by simp),
    List.nil_append, List.map_cons, List.map_nil, spike_deriv_high, if_true]

/-- The second blink cycle, one flat packet later: the spike is still
inside the scanned 25-sample tail, so status `1` is published again. -/
theorem blinkCycle_spike_flat :
    blinkCycle (fun l => l) ⟨List.replicate 1249 ((0 : ℚ), (0 : ℚ)) ++ [((100000000 : ℚ), 0)]⟩
        [flatPacket] =
      Except.ok
        (⟨List.replicate 1248 ((0 : ℚ), (0 : ℚ)) ++ [((100000000 : ℚ), 0), ((0 : ℚ), 0)]⟩, 1) := by
  simp only [blinkCycle, extractAll_flat,
    blinkCycleWF_single 1249 [((100000000 : ℚ), (0 : ℚ))] ((0 : ℚ), (0 : ℚ)) (by omega) (by simp),
    List.cons_append, List.nil_append, List.map_cons, List.map_nil,
    spike_then_flat_deriv_high, if_true]

end Blink

/-- Counterexample to claim C2.  On a completely fresh run (nothing has
calibrated: the gesture detector starts with `is_calibrated = False`, and
the blink worker's state `BlinkSt` has no calibration field at all), the
blink worker's very first cycle publishes the detection event
`{"blink": 1}`: the blink path is not gated on any calibration.  The
model run instantiates the conditioning cascade with the identity; the
source emits at this input too, because its cascade is linear and feeds
the `1e8`-volt edge through with leading coefficient about `4.6e-2`,
giving a real filtered derivative of about `1.1e9` V/s against the
`2e4` V/s threshold (see `spikePacket`). -/
theorem C2_counterexample :
    Fourier.detInit.is_calibrated = false ∧
    Blink.blinkWorker (fun l => l) Blink.blinkInit [(0, [Blink.spikePacket])] =
      ([(0, 1)], none) := by
  refine ⟨rfl, ?_⟩
  simp [Blink.blinkWorker, Blink.blinkCycle_spike]

/-- Counterexample to claim C4.  The blink worker emits a blink event on
two consecutive cycles stamped `0` and `1/100` seconds — `1/100` is well
inside the `COOLDOWN_PO_WYKRYCIU = 1.0` second cooldown the claim asserts
for every detector.  The blink module keeps no emission timestamp and no
cooldown state, so nothing prevents the second event.  The model run
instantiates the conditioning cascade with the identity; by linearity of
the source's cascade the same two emissions occur in the source: the
`1e8`-volt edge sits inside the rescanned 25-sample tail on both cycles,
and the real filtered derivatives scale to about `1.1e9` V/s (first
cycle) and `3.8e9` V/s (second cycle), both far above `DERIV_THRESH`,
while no state of `run_blink_detector` records the first emission. -/
theorem C4_counterexample :
    Blink.blinkWorker (fun l => l) Blink.blinkInit
        [(0, [Blink.spikePacket]), (1/100, [Blink.flatPacket])] =
      ([(0, 1), (1/100, 1)], none) ∧
    (1/100 : ℚ) < 0 + Fourier.COOLDOWN_PO_WYKRYCIU := by
  constructor
  · simp only [Blink.blinkWorker, Blink.blinkCycle_spike, Blink.blinkCycle_spike_flat,
      List.isEmpty_cons, Bool.false_eq_true, if_false]
  · norm_num [Fourier.COOLDOWN_PO_WYKRYCIU]

/-! ## Claim C9: per-cycle failures and the worker loops -/

/-- Counterexample to claim C9.  A packet with the `"data"` field missing
makes the blink worker's cycle raise; the `try` around the loop catches
only `KeyboardInterrupt`, so the worker terminates with the error: no
message is published and the following (well-formed) cycle is never
processed.  In the slide controller of `player-final.py` a raising message
is caught but answered with `break`: the loop exits and the later good
message is never handled either. -/
theorem C9_counterexample :
    Blink.blinkWorker (fun l => l) Blink.blinkInit
        [(0, [Blink.noDataPacket]), (1, [Blink.spikePacket])] =
      ([], some Blink.WorkerErr.missingField) ∧
    Player.slideLoopDash [Player.InMsg.malformed, Player.InMsg.json (some 1)] = [] := by
  constructor
  · simp [Blink.blinkWorker, Blink.blinkCycle, Blink.extractAll, Blink.extractChunk,
      Blink.noDataPacket]
  · rfl

/-- Claim C9 (amended): per-cycle failures are caught and the loop
continues in the gesture detector (whose frame body runs inside
`try/except Exception`) and in the `player_final.py` slide-controller
variant; but in the blink detector a failing cycle terminates the worker
(only `KeyboardInterrupt` is caught), and in the `player-final.py`
variant the failure is caught and then `break`s the loop, ending the
worker, so in neither of those two does the loop continue. -/
theorem C9_loop_behavior :
    (∀ (filt : List ℚ → List ℚ) (s : Blink.BlinkSt) (e : Blink.WorkerErr) (t : ℚ)
        (ps : List Blink.Packet) (rest : List (ℚ × List Blink.Packet)),
      ps ≠ [] → Blink.blinkCycle filt s ps = Except.error e →
      Blink.blinkWorker filt s ((t, ps) :: rest) = ([], some e)) ∧
    (∀ rest : List Player.InMsg,
      Player.slideLoopDash (Player.InMsg.malformed :: rest) = []) ∧
    (∀ rest : List Player.InMsg,
      Player.slideLoopUnderscore (Player.InMsg.malformed :: rest) =
        Player.slideLoopUnderscore rest) ∧
    (∀ (t0 : ℚ) (s : Fourier.DetState) (rest : List (Option (ℚ × ℚ))),
      Fourier.fourierWorker t0 s (none :: rest) = Fourier.fourierWorker t0 s rest) := by
  refine ⟨?_, ?_, ?_, ?_⟩
  · intro filt s e t ps rest hps hc
    cases ps with
    | nil => exact absurd rfl hps
    | cons a l => simp [Blink.blinkWorker, hc]
  · intro rest; rfl
  · intro rest; rfl
  · intro t0 s rest; rfl

/-- Witness for `C9_loop_behavior` on concrete failing inputs. -/
theorem C9_loop_behavior_witness :
    Blink.blinkWorker (fun l => l) Blink.blinkInit [(0, [Blink.noDataPacket])] =
      ([], some Blink.WorkerErr.missingField) ∧
    Player.slideLoopDash [Player.InMsg.malformed] = [] ∧
    Player.slideLoopUnderscore [Player.InMsg.malformed] = Player.slideLoopUnderscore [] ∧
    Fourier.fourierWorker 0 Fourier.detInit [none] = Fourier.fourierWorker 0 Fourier.detInit [] :=
  ⟨C9_loop_behavior.1 (fun l => l) Blink.blinkInit Blink.WorkerErr.missingField 0 _ []
      (by simp)
      (by simp [Blink.blinkCycle, Blink.extractAll, Blink.extractChunk, Blink.noDataPacket]),
    C9_loop_behavior.2.1 [], C9_loop_behavior.2.2.1 [], C9_loop_behavior.2.2.2 0 _ []⟩

/-! ## Claim C10: the blink decision reads only channel O1 -/

theorem npRollNeg_map {α β : Type} (f : α → β) (l : List α) (k : Nat) :
    (Buffers.npRollNeg l k).map f = Buffers.npRollNeg (l.map f) k := by
  unfold Buffers.npRollNeg
  rw [List.length_map]
  split_ifs with h
  · rfl
  · rw [List.map_append, List.map_take, List.map_drop]

theorem ringUpdate_map {α β : Type} (f : α → β) (buf chunk : List α) :
    (Buffers.ringUpdate buf chunk).map (List.map f) =
      Buffers.ringUpdate (buf.map f) (chunk.map f) := by
  unfold Buffers.ringUpdate
  simp only [List.length_map]
  split_ifs with h
  · rfl
  · rw [Option.map_some', List.map_append, List.map_take, npRollNeg_map]

/-- The outcome of one blink cycle — status published, crash or not, and
the O1 projection of the resulting buffer — depends only on the O1
projections of the buffer and of the incoming chunks. -/
theorem blinkCycleWF_fst (filt : List ℚ → List ℚ) (s1 s2 : Blink.BlinkSt)
    (cs1 cs2 : List (List (ℚ × ℚ)))
    (hb : s1.buf.map Prod.fst = s2.buf.map Prod.fst)
    (hc : cs1.map (List.map Prod.fst) = cs2.map (List.map Prod.fst)) :
    Option.map (fun r => (r.1.buf.map Prod.fst, r.2)) (Blink.blinkCycleWF filt s1 cs1) =
      Option.map (fun r => (r.1.buf.map Prod.fst, r.2)) (Blink.blinkCycleWF filt s2 cs2) := by
  have hnb : cs1.flatten.map Prod.fst = cs2.flatten.map Prod.fst := by
    rw [List.map_flatten, List.map_flatten, hc]
  have hlen : cs1.flatten.length = cs2.flatten.length := by
    rw [← List.length_map cs1.flatten Prod.fst, hnb, List.length_map]
  have hru : Option.map (List.map Prod.fst) (Buffers.ringUpdate s1.buf cs1.flatten) =
      Option.map (List.map Prod.fst) (Buffers.ringUpdate s2.buf cs2.flatten) := by
    rw [ringUpdate_map, ringUpdate_map, hb, hnb]
  simp only [Blink.blinkCycleWF]
  cases h1 : Buffers.ringUpdate s1.buf cs1.flatten with
  | none =>
    cases h2 : Buffers.ringUpdate s2.buf cs2.flatten with
    | none => rfl
    | some b2 => rw [h1, h2] at hru; simp at hru
  | some b1 =>
    cases h2 : Buffers.ringUpdate s2.buf cs2.flatten with
    | none => rw [h1, h2] at hru; simp at hru
    | some b2 =>
      rw [h1, h2] at hru
      simp only [Option.map_some', Option.some.injEq] at hru
      simp only [Option.map_some', Option.some.injEq]
      rw [hru, hlen]

/-- Claim C10: the published blink sequence depends only on the first
analyzed channel.  Two runs of the blink worker whose starting buffers
agree on channel O1 and whose per-cycle chunk streams agree on channel O1
(but may differ arbitrarily on O2) produce identical outputs — the same
`(time, status)` messages and the same crash behavior — for every
conditioning cascade `filt`. -/
theorem C10_blink_O1_only (filt : List ℚ → List ℚ) :
    ∀ (ins1 ins2 : List (ℚ × List (List (ℚ × ℚ)))) (s1 s2 : Blink.BlinkSt),
      s1.buf.map Prod.fst = s2.buf.map Prod.fst →
      ins1.map (fun c => (c.1, c.2.map (List.map Prod.fst))) =
        ins2.map (fun c => (c.1, c.2.map (List.map Prod.fst))) →
      Blink.blinkWorkerWF filt s1 ins1 = Blink.blinkWorkerWF filt s2 ins2 := by
  intro ins1
  induction ins1 with
  | nil =>
    intro ins2 s1 s2 hb hins
    cases ins2 with
    | nil => rfl
    | cons c cs => simp at hins
  | cons c1 rest1 ih =>
    intro ins2 s1 s2 hb hins
    cases ins2 with
    | nil => simp at hins
    | cons c2 rest2 =>
      simp only [List.map_cons, List.cons.injEq, Prod.mk.injEq] at hins
      obtain ⟨⟨ht, hc⟩, hrest⟩ := hins
      have hemp : c1.2.isEmpty = c2.2.isEmpty := by
        rcases hl1 : c1.2 with _ | ⟨x, xs⟩ <;> rcases hl2 : c2.2 with _ | ⟨y, ys⟩ <;>
          simp_all
      rw [Blink.blinkWorkerWF, Blink.blinkWorkerWF]
      by_cases he : c2.2.isEmpty = true
      · rw [if_pos (hemp.trans he), if_pos he]
        exact ih rest2 s1 s2 hb hrest
      · rw [if_neg (fun hx => he (hemp.symm.trans hx)), if_neg he]
        have hcyc := blinkCycleWF_fst filt s1 s2 c1.2 c2.2 hb hc
        cases h1 : Blink.blinkCycleWF filt s1 c1.2 with
        | none =>
          cases h2 : Blink.blinkCycleWF filt s2 c2.2 with
          | none => rfl
          | some r2 => rw [h1, h2] at hcyc; simp at hcyc
        | some r1 =>
          cases h2 : Blink.blinkCycleWF filt s2 c2.2 with
          | none => rw [h1, h2] at hcyc; simp at hcyc
          | some r2 =>
            rw [h1, h2] at hcyc
            simp only [Option.map_some', Option.some.injEq, Prod.mk.injEq] at hcyc
            have hrec := ih rest2 r1.1 r2.1 hcyc.1 hrest
            simp only [hrec, hcyc.2, ht]

/-- Witness for `C10_blink_O1_only`: two one-cycle streams agreeing on O1
(sample `5`) and differing on O2 (`1` versus `9`) yield equal worker
results. -/
theorem C10_blink_O1_only_witness :
    Blink.blinkWorkerWF (fun l => l) Blink.blinkInit [(0, [[((5 : ℚ), (1 : ℚ))]])] =
      Blink.blinkWorkerWF (fun l => l) Blink.blinkInit [(0, [[((5 : ℚ), (9 : ℚ))]])] :=
  C10_blink_O1_only (fun l => l) _ _ _ _ rfl rfl

/-! ## Claim C7: the ring buffer holds the tail of the stream -/

theorem lastN_length_of_le {α : Type} (n : Nat) (l : List α) (h : n ≤ l.length) :
    (lastN n l).length = n := by
  unfold lastN
  rw [List.length_drop]
  omega

theorem lastN_append_small {α : Type} (buf c : List α) (h : c.length ≤ buf.length) :
    lastN buf.length (buf ++ c) = buf.drop c.length ++ c := by
  unfold lastN
  rw [List.length_append]
  have h1 : buf.length + c.length - buf.length = c.length := by omega
  rw [h1, List.drop_append_eq_append_drop]
  have h2 : c.length - buf.length = 0 := by omega
  rw [h2, List.drop_zero]

theorem lastN_append_big {α : Type} (buf d : List α) (h : buf.length ≤ d.length) :
    lastN buf.length (buf ++ d) = d.drop (d.length - buf.length) := by
  unfold lastN
  rw [List.length_append]
  have h1 : buf.length + d.length - buf.length = d.length := by omega
  rw [h1, List.drop_append_eq_append_drop, List.drop_eq_nil_of_le h, List.nil_append]

theorem lastN_lastN_append {α : Type} (n : Nat) (x y : List α) :
    lastN n (lastN n x ++ y) = lastN n (x ++ y) := by
  rcases le_or_lt x.length n with h | h
  · have hx : lastN n x = x := by
      unfold lastN
      rw [Nat.sub_eq_zero_of_le h, List.drop_zero]
    rw [hx]
  · unfold lastN
    simp only [List.length_append, List.length_drop, List.drop_append_eq_append_drop,
      List.drop_drop]
    congr 1
    · congr 1
      omega
    · congr 1
      omega

theorem fourierBufUpdate_eq (buf d : List ℚ) (hd : d ≠ []) :
    Buffers.fourierBufUpdate buf d = some (lastN buf.length (buf ++ d)) := by
  unfold Buffers.fourierBufUpdate
  split_ifs with h1 h2
  · rw [lastN_append_big buf d h1]
  · exact absurd (List.length_eq_zero.1 h2) hd
  · rw [lastN_append_small buf d (by omega)]

theorem ringUpdate_eq {α : Type} (buf c : List α) (hc : c ≠ []) (hle : c.length ≤ buf.length) :
    Buffers.ringUpdate buf c = some (lastN buf.length (buf ++ c)) := by
  rw [Buffers.ringUpdate_small buf c hc hle, lastN_append_small buf c hle]

theorem fourierRun_eq (n : Nat) : ∀ (batches : List (List ℚ)) (buf : List ℚ),
    buf.length = n → (∀ b ∈ batches, b ≠ []) →
    Buffers.fourierRun buf batches = some (lastN n (buf ++ batches.flatten)) := by
  intro batches
  induction batches with
  | nil =>
    intro buf hl _
    simp [Buffers.fourierRun, lastN, hl]
  | cons c cs ih =>
    intro buf hl hne
    simp only [Buffers.fourierRun, fourierBufUpdate_eq buf c (hne c (by simp)), hl]
    rw [ih (lastN n (buf ++ c))
      (by rw [← hl]; exact lastN_length_of_le _ _ (by rw [List.length_append]; omega))
      (fun b hb => hne b (by simp [hb]))]
    rw [lastN_lastN_append, List.flatten_cons, ← List.append_assoc]

theorem ringRun_eq (n : Nat) : ∀ (batches : List (List ℚ)) (buf : List ℚ),
    buf.length = n → (∀ b ∈ batches, b ≠ [] ∧ b.length ≤ n) →
    Buffers.ringRun buf batches = some (lastN n (buf ++ batches.flatten)) := by
  intro batches
  induction batches with
  | nil =>
    intro buf hl _
    simp [Buffers.ringRun, lastN, hl]
  | cons c cs ih =>
    intro buf hl hne
    simp only [Buffers.ringRun,
      ringUpdate_eq buf c (hne c (by simp)).1 (by rw [hl]; exact (hne c (by simp)).2), hl]
    rw [ih (lastN n (buf ++ c))
      (by rw [← hl]; exact lastN_length_of_le _ _ (by rw [List.length_append]; omega))
      (fun b hb => hne b (by simp [hb]))]
    rw [lastN_lastN_append, List.flatten_cons, ← List.append_assoc]

/-- Counterexample to claim C7.  A single batch of `1251` samples exceeds
the `1250`-sample blink buffer: the `eeg_buffer[:, -chunk_len:]`
assignment raises a numpy broadcast error (modelled `none`), so after that
update the buffer does not equal the last-N of the stream — the claim's
"batches of any sizes" fails on the blink-detector update. -/
theorem C7_counterexample :
    Buffers.ringRun (List.replicate 1250 (0 : ℚ)) [List.replicate 1251 1] ≠
      some (lastN 1250 (List.replicate 1250 (0 : ℚ) ++
        ([List.replicate 1251 (1 : ℚ)]).flatten)) := by
  have h : Buffers.ringUpdate (List.replicate 1250 (0 : ℚ))
      (List.replicate 1251 (1 : ℚ)) = none := by
    simp [Buffers.ringUpdate]
  simp only [Buffers.ringRun, h]
  exact fun hx => Option.noConfusion hx

/-- Claim C7 (amended): from the zero-initialized buffer, the
gesture-detector update keeps the buffer equal to the last `n` samples of
everything fed so far (zero-padded in front), for every sequence of
nonempty batches of any sizes; the blink-detector update does the same
provided every concatenated block has at most `n` samples (an oversized
block raises instead — see the counterexample). -/
theorem C7_ring_tail (n : Nat) (batches : List (List ℚ)) :
    ((∀ b ∈ batches, b ≠ []) →
      Buffers.fourierRun (List.replicate n 0) batches =
        some (lastN n (List.replicate n (0 : ℚ) ++ batches.flatten))) ∧
    ((∀ b ∈ batches, b ≠ [] ∧ b.length ≤ n) →
      Buffers.ringRun (List.replicate n 0) batches =
        some (lastN n (List.replicate n (0 : ℚ) ++ batches.flatten))) :=
  ⟨fun h => fourierRun_eq n batches _ (by simp) h,
    fun h => ringRun_eq n batches _ (by simp) h⟩

/-- Witness for `C7_ring_tail` with a 3-slot buffer and batches
`[1, 2]` and `[3]`. -/
theorem C7_ring_tail_witness :
    Buffers.fourierRun (List.replicate 3 (0 : ℚ)) [[1, 2], [3]] =
      some (lastN 3 (List.replicate 3 (0 : ℚ) ++ ([[1, 2], [3]] : List (List ℚ)).flatten)) ∧
    Buffers.ringRun (List.replicate 3 (0 : ℚ)) [[1, 2], [3]] =
      some (lastN 3 (List.replicate 3 (0 : ℚ) ++ ([[1, 2], [3]] : List (List ℚ)).flatten)) :=
  ⟨(C7_ring_tail 3 [[1, 2], [3]]).1 (by decide),
    (C7_ring_tail 3 [[1, 2], [3]]).2 (by decide)⟩
